import Mathlib

/-!
Shallow embedding of the pixel-classification and recoloring engine of
`src/qr-generator.js` (class `AdvancedQRGenerator`), together with proofs of the
specified properties.

Conventions of the embedding:
* JS numbers holding 8-bit channel values are modelled as `Nat`; subtractions
  that can go negative in JS (`r - foregroundRgb[0]`) are modelled in `Int`.
* The 3-element JS array `[r, g, b]` returned by `hexToRgb` is modelled as the
  triple `Nat × Nat × Nat`.
* `Math.sqrt` is applied in the source only to compare two distances with `<`.
  Both radicands are integers bounded by `3 * 255^2 = 195075`, hence exact IEEE
  doubles, and correctly rounded square roots of distinct integers in that range
  are distinct doubles (the gap between the true roots is at least
  `1/(2*442) > 2^-10`, far above the rounding error `~2^-44`), so the float
  comparison `Math.sqrt a < Math.sqrt b` agrees with the integer comparison
  `a < b`.  The embedding therefore compares squared distances; the link to the
  Euclidean (square-rooted) distances is proved with `Real.sqrt`.
* The asynchronous control flow of `applyAdvancedStyling` / `generateQR` is
  modelled with `Except String`: a promise rejection is `.error`, a resolution
  is `.ok`.
-/

namespace QrGen

/-- Lowercase hexadecimal digit character for a value `n < 16`, exactly as
produced by JS `Number.prototype.toString(16)` (digits `0`-`9`, then `a`-`f`). -/
def hexDigitChar (n : Nat) : Char :=
  if n < 10 then Char.ofNat (48 + n) else Char.ofNat (87 + n)

/-- Test of the regex character class `[a-f\d]` (applied case-insensitively in
the source, so `A`-`F` are accepted as well): decides whether `c` is a
hexadecimal digit. -/
def isHexDigitChar (c : Char) : Bool :=
  (48 ≤ c.toNat && c.toNat ≤ 57) || (97 ≤ c.toNat && c.toNat ≤ 102) ||
    (65 ≤ c.toNat && c.toNat ≤ 70)

/-- Numeric value of one hexadecimal digit character, as `parseInt(_, 16)`
computes it for characters matched by `[a-f\d]` (case-insensitive). -/
def hexDigitVal (c : Char) : Nat :=
  if c.toNat ≤ 57 then c.toNat - 48
  else if c.toNat ≤ 70 then c.toNat - 55
  else c.toNat - 87

/-- Value of a two-hex-digit regex group under `parseInt(_, 16)`. -/
def hexPairVal (c d : Char) : Nat := 16 * hexDigitVal c + hexDigitVal d

/-- The leading `#?` of the regex `/^#?([a-f\d]{2})([a-f\d]{2})([a-f\d]{2})$/i`:
an optional leading `#` is consumed (a `#` can never be matched by the digit
groups, so stripping it when present is exactly what the regex does). -/
def stripHash : List Char → List Char
  | '#' :: rest => rest
  | cs => cs

/-- The three capture groups of the regex: after the optional `#`, the string
must consist of exactly six hex-digit characters, parsed in pairs; otherwise
the source's `result` is `null` and the fallback `[0, 0, 0]` is returned. -/
def parseSixHex : List Char → Nat × Nat × Nat
  | [c1, c2, c3, c4, c5, c6] =>
    if isHexDigitChar c1 && isHexDigitChar c2 && isHexDigitChar c3 &&
        isHexDigitChar c4 && isHexDigitChar c5 && isHexDigitChar c6 then
      (hexPairVal c1 c2, hexPairVal c3 c4, hexPairVal c5 c6)
    else (0, 0, 0)
  | _ => (0, 0, 0)

/-- Embedding of `hexToRgb(hex)`: runs the anchored case-insensitive regex
`/^#?([a-f\d]{2})([a-f\d]{2})([a-f\d]{2})$/i` against `hex` and converts the
three two-digit groups with `parseInt(_, 16)`; on no match it returns the
lenient default `[0, 0, 0]` (pure black). -/
def hexToRgb (hex : String) : Nat × Nat × Nat :=
  parseSixHex (stripHash hex.toList)

/-- The combined integer `(1 << 24) + (r << 16) + (g << 8) + b` built by
`rgbToHex` (the shifts never overflow the 32-bit signed range for channel
values `≤ 255`). -/
def rgbCombined (r g b : Nat) : Nat := 16777216 + r * 65536 + g * 256 + b

/-- Embedding of `rgbToHex(r, g, b)`, i.e.
`"#" + ((1 << 24) + (r << 16) + (g << 8) + b).toString(16).slice(1)`.
For channels in `[0, 255]` the number `n = rgbCombined r g b` lies in
`[16^6, 16^7)`, so `toString(16)` yields exactly seven lowercase hex digits
whose leading digit is `1`; `slice(1)` keeps the six digits at the places
`16^5 .. 16^0` of `n`, which is what is written out here. -/
def rgbToHex (r g b : Nat) : String :=
  String.mk ['#', hexDigitChar (rgbCombined r g b / 1048576 % 16),
    hexDigitChar (rgbCombined r g b / 65536 % 16),
    hexDigitChar (rgbCombined r g b / 4096 % 16),
    hexDigitChar (rgbCombined r g b / 256 % 16),
    hexDigitChar (rgbCombined r g b / 16 % 16),
    hexDigitChar (rgbCombined r g b % 16)]

/-- Embedding of `invertColor(hex)`: per-channel complement
`rgbToHex(255 - rgb[0], 255 - rgb[1], 255 - rgb[2])` (the channels returned by
`hexToRgb` are always `≤ 255`, so natural subtraction is exact). -/
def invertColor (hex : String) : String :=
  rgbToHex (255 - (hexToRgb hex).1) (255 - (hexToRgb hex).2.1)
    (255 - (hexToRgb hex).2.2)

example : hexToRgb "#2196F3" = (33, 150, 243) := by decide
example : hexToRgb "abcdef" = (171, 205, 239) := by decide
example : hexToRgb "nothex" = (0, 0, 0) := by decide
example : rgbToHex 33 150 243 = "#2196f3" := by decide
example : invertColor "#2196F3" = "#de690c" := by decide
example : invertColor "#000000" = "#ffffff" := by decide

/-- One RGBA pixel of the decoded raster: the four bytes
`data.data[idx] .. data.data[idx + 3]`. -/
structure Pixel where
  r : Nat
  g : Nat
  b : Nat
  a : Nat
  deriving DecidableEq

/-- The raster object produced by `png.parse`: dimensions plus the pixel bytes,
here grouped four bytes to a pixel, in the row-major order
`idx = (width * y + x) << 2` that the source's double loop visits. -/
structure RasterData where
  width : Nat
  height : Nat
  pixels : List Pixel
  deriving DecidableEq

/-- The binary per-pixel label of the specification. -/
inductive PixelClass where
  | FOREGROUND
  | BACKGROUND
  deriving DecidableEq

/-- Squared Euclidean RGB distance
`(r - c[0])^2 + (g - c[1])^2 + (b - c[2])^2` from a pixel's colour channels to
a reference colour, in `Int` because the JS differences may be negative.  The
source compares `Math.sqrt` of these quantities; since `Math.sqrt` is strictly
monotone and exact on the integer radicands involved (see the header comment),
comparing the squares is equivalent. -/
def dist2 (r g b : Nat) (c : Nat × Nat × Nat) : Int :=
  ((r : Int) - c.1) ^ 2 + ((g : Int) - c.2.1) ^ 2 + ((b : Int) - c.2.2) ^ 2

/-- The classification decision of the pixel loop: `fgDistance < bgDistance`
selects the foreground branch, everything else (ties included) the background
branch. -/
def classifyPixel (fgRgb bgRgb : Nat × Nat × Nat) (p : Pixel) : PixelClass :=
  if dist2 p.r p.g p.b fgRgb < dist2 p.r p.g p.b bgRgb then .FOREGROUND
  else .BACKGROUND

/-- Body of the pixel loop of `applyAdvancedStyling`: a pixel closer to the
foreground colour is rewritten to the foreground colour with alpha 255; a
background pixel becomes fully transparent `(0,0,0,0)` when `transparent` is
set and the opaque background colour otherwise. -/
def recolorPixel (fgRgb bgRgb : Nat × Nat × Nat) (transparent : Bool)
    (p : Pixel) : Pixel :=
  if dist2 p.r p.g p.b fgRgb < dist2 p.r p.g p.b bgRgb then
    ⟨fgRgb.1, fgRgb.2.1, fgRgb.2.2, 255⟩
  else if transparent then ⟨0, 0, 0, 0⟩
  else ⟨bgRgb.1, bgRgb.2.1, bgRgb.2.2, 255⟩

/-- The foreground reference colour resolved inside `applyAdvancedStyling`:
`this.hexToRgb(options.foregroundColor || '#000000')`; `none` models an absent
`foregroundColor` option. -/
def foregroundRgbOf (foregroundColor : Option String) : Nat × Nat × Nat :=
  hexToRgb (foregroundColor.getD "#000000")

/-- The pixel sweep of `applyAdvancedStyling` on a successfully parsed raster:
every pixel (visited row-major by the `y`/`x` loops) is rewritten by
`recolorPixel` with the resolved foreground colour and
`hexToRgb(actualBackgroundColor)` as references. -/
def processRaster (foregroundColor : Option String) (transparent : Bool)
    (actualBackgroundColor : String) (d : RasterData) : RasterData :=
  { d with
    pixels := d.pixels.map
      (recolorPixel (foregroundRgbOf foregroundColor)
        (hexToRgb actualBackgroundColor) transparent) }

/-- Embedding of `applyAdvancedStyling(buffer, options, actualBackgroundColor)`.
`parse` and `encode` stand for the external `png.parse` / `PNG.sync.write`.
Control flow of the source: the `try { return new Promise(...) } catch ...`
only guards synchronous throws, and the promise executor never throws
synchronously (`png.parse` delivers failures through its callback, which calls
`reject(error)`); a rejection of the returned promise is therefore NOT
intercepted by the `catch` block, so a parse failure surfaces as `.error` to
the caller and the fallback `return buffer` branch is unreachable. -/
def applyAdvancedStyling (parse : List Nat → Except String RasterData)
    (encode : RasterData → List Nat) (foregroundColor : Option String)
    (transparent : Bool) (buffer : List Nat) (actualBackgroundColor : String) :
    Except String (List Nat) :=
  match parse buffer with
  | .error e => .error e
  | .ok d =>
    .ok (encode (processRaster foregroundColor transparent actualBackgroundColor d))

/-- The background-colour resolution at the top of `generateQR`:
`options.transparent ? this.invertColor(foregroundColor) :
(options.backgroundColor || '#FFFFFF')`, with
`foregroundColor = options.foregroundColor || '#000000'`; `none` models an
absent option. -/
def backgroundColorToUse (transparent : Bool)
    (foregroundColor backgroundColor : Option String) : String :=
  if transparent then invertColor (foregroundColor.getD "#000000")
  else backgroundColor.getD "#FFFFFF"

/-- The styling arm of `generateQR` after `QRCode.toBuffer` has succeeded:
`await this.applyAdvancedStyling(buffer, options, backgroundColorToUse)` runs
inside `generateQR`'s `try`, whose `catch` rethrows any rejection as the fatal
`Error("QR generation failed: " + error.message)`. -/
def generateQRStyled (parse : List Nat → Except String RasterData)
    (encode : RasterData → List Nat)
    (foregroundColor backgroundColor : Option String) (transparent : Bool)
    (buffer : List Nat) : Except String (List Nat) :=
  match applyAdvancedStyling parse encode foregroundColor transparent buffer
      (backgroundColorToUse transparent foregroundColor backgroundColor) with
  | .error e => .error ("QR generation failed: " ++ e)
  | .ok styled => .ok styled

/-- The version handling of `generateQR`:
`if (options.version && options.version > 1) qrOptions.version = options.version`.
`none` models an absent/undefined option (falsy, like `0`); the returned value
is the `version` field of `qrOptions` handed to the external encoder, `none`
meaning the field is not set (automatic version selection). -/
def versionToPass (version : Option Nat) : Option Nat :=
  match version with
  | some v => if v > 1 then some v else none
  | none => none

/-- Validity predicate written from the specification's words: the colour
string matches the 6-hex-digit pattern, leading `#` optional,
case-insensitive. -/
def matchesHexPattern (hex : String) : Bool :=
  (stripHash hex.toList).length == 6 &&
    (stripHash hex.toList).all isHexDigitChar

example :
    processRaster (some "#000000") true "#ffffff"
        ⟨2, 1, [⟨0, 0, 0, 255⟩, ⟨255, 255, 255, 255⟩]⟩ =
      ⟨2, 1, [⟨0, 0, 0, 255⟩, ⟨0, 0, 0, 0⟩]⟩ := by decide

example :
    generateQRStyled (fun _ => .error "bad png") (fun _ => [])
        (some "#000000") none true [1, 2, 3] =
      .error "QR generation failed: bad png" := rfl

example : versionToPass (some 1) = none := by decide
example : matchesHexPattern "#2196F3" = true := by decide

/-! ### ColorMath lemmas -/

theorem isHexDigitChar_hexDigitChar :
    ∀ n < 16, isHexDigitChar (hexDigitChar n) = true := by decide

theorem hexDigitVal_hexDigitChar :
    ∀ n < 16, hexDigitVal (hexDigitChar n) = n := by decide

theorem hexPairVal_split (x : Nat) (h : x < 256) :
    hexPairVal (hexDigitChar (x / 16)) (hexDigitChar (x % 16)) = x := by
  have h1 := hexDigitVal_hexDigitChar (x / 16) (by omega)
  have h2 := hexDigitVal_hexDigitChar (x % 16) (by omega)
  simp only [hexPairVal, h1, h2]
  omega

/-- For in-range channels the string built by `rgbToHex` is `#` followed by the
two-digit zero-padded lowercase hex expansions of `r`, `g`, `b` in order. -/
theorem rgbToHex_canonical (r g b : Nat) (hr : r < 256) (hg : g < 256)
    (hb : b < 256) :
    rgbToHex r g b =
      String.mk ['#', hexDigitChar (r / 16), hexDigitChar (r % 16),
        hexDigitChar (g / 16), hexDigitChar (g % 16),
        hexDigitChar (b / 16), hexDigitChar (b % 16)] := by
  have h1 : rgbCombined r g b / 1048576 % 16 = r / 16 := by
    unfold rgbCombined; omega
  have h2 : rgbCombined r g b / 65536 % 16 = r % 16 := by
    unfold rgbCombined; omega
  have h3 : rgbCombined r g b / 4096 % 16 = g / 16 := by
    unfold rgbCombined; omega
  have h4 : rgbCombined r g b / 256 % 16 = g % 16 := by
    unfold rgbCombined; omega
  have h5 : rgbCombined r g b / 16 % 16 = b / 16 := by
    unfold rgbCombined; omega
  have h6 : rgbCombined r g b % 16 = b % 16 := by
    unfold rgbCombined; omega
  simp only [rgbToHex, h1, h2, h3, h4, h5, h6]

theorem hexToRgb_rgbToHex (r g b : Nat) (hr : r < 256) (hg : g < 256)
    (hb : b < 256) :
    hexToRgb (rgbToHex r g b) = (r, g, b) := by
  rw [rgbToHex_canonical r g b hr hg hb]
  show parseSixHex [hexDigitChar (r / 16), hexDigitChar (r % 16),
    hexDigitChar (g / 16), hexDigitChar (g % 16),
    hexDigitChar (b / 16), hexDigitChar (b % 16)] = (r, g, b)
  have e1 := isHexDigitChar_hexDigitChar (r / 16) (by omega)
  have e2 := isHexDigitChar_hexDigitChar (r % 16) (by omega)
  have e3 := isHexDigitChar_hexDigitChar (g / 16) (by omega)
  have e4 := isHexDigitChar_hexDigitChar (g % 16) (by omega)
  have e5 := isHexDigitChar_hexDigitChar (b / 16) (by omega)
  have e6 := isHexDigitChar_hexDigitChar (b % 16) (by omega)
  simp only [parseSixHex, e1, e2, e3, e4, e5, e6, Bool.and_self, if_true,
    hexPairVal_split r hr, hexPairVal_split g hg, hexPairVal_split b hb]

theorem parseSixHex_default (cs : List Char)
    (h : (cs.length == 6 && cs.all isHexDigitChar) = false) :
    parseSixHex cs = (0, 0, 0) := by
  rcases cs with _ | ⟨c1, _ | ⟨c2, _ | ⟨c3, _ | ⟨c4, _ | ⟨c5, _ | ⟨c6,
      _ | ⟨c7, cs⟩⟩⟩⟩⟩⟩⟩ <;>
    simp_all [parseSixHex, List.all_cons, List.all_nil]

/-! ### Claim theorems: ColorMath -/

/-- C10: for all channel values `r`, `g`, `b` in `[0, 255]`, `rgbToHex`
produces a `#` followed by exactly six hex digits (each channel zero-padded to
two digits), and `hexToRgb` recovers exactly `(r, g, b)` from it. -/
theorem C10_rgbToHex_hexToRgb_round_trip (r g b : Nat) (hr : r ≤ 255)
    (hg : g ≤ 255) (hb : b ≤ 255) :
    (rgbToHex r g b).toList.length = 7 ∧
    (rgbToHex r g b).toList.head? = some '#' ∧
    (rgbToHex r g b).toList.tail.all isHexDigitChar = true ∧
    hexToRgb (rgbToHex r g b) = (r, g, b) := by
  rw [rgbToHex_canonical r g b (by omega) (by omega) (by omega)]
  refine ⟨rfl, rfl, ?_, ?_⟩
  · have e1 := isHexDigitChar_hexDigitChar (r / 16) (by omega)
    have e2 := isHexDigitChar_hexDigitChar (r % 16) (by omega)
    have e3 := isHexDigitChar_hexDigitChar (g / 16) (by omega)
    have e4 := isHexDigitChar_hexDigitChar (g % 16) (by omega)
    have e5 := isHexDigitChar_hexDigitChar (b / 16) (by omega)
    have e6 := isHexDigitChar_hexDigitChar (b % 16) (by omega)
    simp [List.all_cons, e1, e2, e3, e4, e5, e6]
  · rw [← rgbToHex_canonical r g b (by omega) (by omega) (by omega)]
    exact hexToRgb_rgbToHex r g b (by omega) (by omega) (by omega)

theorem C10_witness :
    (171 ≤ 255 ∧ 205 ≤ 255 ∧ 239 ≤ 255) ∧
    ((rgbToHex 171 205 239).toList.length = 7 ∧
      (rgbToHex 171 205 239).toList.head? = some '#' ∧
      (rgbToHex 171 205 239).toList.tail.all isHexDigitChar = true ∧
      hexToRgb (rgbToHex 171 205 239) = (171, 205, 239)) :=
  ⟨by decide, C10_rgbToHex_hexToRgb_round_trip 171 205 239 (by decide)
    (by decide) (by decide)⟩

/-- C5 counterexample: `"#ABCDEF"` is a valid 6-digit hex colour string (the
pattern is case-insensitive), yet the double inversion returns the canonical
lowercase spelling `"#abcdef"`, not the original string. -/
theorem C5_round_trip_cex :
    matchesHexPattern "#ABCDEF" = true ∧
    invertColor (invertColor "#ABCDEF") ≠ "#ABCDEF" := by decide

/-- C5 (amended): `invertColor` is an involution on canonically spelled colours
— a `#` followed by six lowercase hex digits, i.e. exactly the strings
`rgbToHex r g b` for channels in `[0, 255]`.  On other valid spellings
(uppercase digits or a missing `#`) the double inversion returns the canonical
spelling of the same colour rather than the original string. -/
theorem C5_invertColor_involutive_canonical (r g b : Nat) (hr : r ≤ 255)
    (hg : g ≤ 255) (hb : b ≤ 255) :
    invertColor (invertColor (rgbToHex r g b)) = rgbToHex r g b := by
  unfold invertColor
  rw [hexToRgb_rgbToHex r g b (by omega) (by omega) (by omega)]
  rw [show ((r, g, b) : Nat × Nat × Nat).1 = r from rfl,
    show ((r, g, b) : Nat × Nat × Nat).2.1 = g from rfl,
    show ((r, g, b) : Nat × Nat × Nat).2.2 = b from rfl]
  rw [hexToRgb_rgbToHex (255 - r) (255 - g) (255 - b) (by omega) (by omega)
    (by omega)]
  rw [show ((255 - r, 255 - g, 255 - b) : Nat × Nat × Nat).1 = 255 - r from rfl,
    show ((255 - r, 255 - g, 255 - b) : Nat × Nat × Nat).2.1 = 255 - g from rfl,
    show ((255 - r, 255 - g, 255 - b) : Nat × Nat × Nat).2.2 = 255 - b from rfl]
  rw [show 255 - (255 - r) = r by omega, show 255 - (255 - g) = g by omega,
    show 255 - (255 - b) = b by omega]

theorem C5_witness :
    (33 ≤ 255 ∧ 150 ≤ 255 ∧ 243 ≤ 255) ∧
    invertColor (invertColor (rgbToHex 33 150 243)) = rgbToHex 33 150 243 :=
  ⟨by decide, C5_invertColor_involutive_canonical 33 150 243 (by decide)
    (by decide) (by decide)⟩

/-- C8: every input string that does not match the 6-hex-digit pattern
(leading `#` optional, case-insensitive) makes `hexToRgb` return pure black
`(0, 0, 0)` instead of raising an error. -/
theorem C8_hexToRgb_malformed_default (hex : String)
    (h : matchesHexPattern hex = false) :
    hexToRgb hex = (0, 0, 0) :=
  parseSixHex_default (stripHash hex.toList) h

theorem C8_witness :
    matchesHexPattern "not-a-color" = false ∧
    hexToRgb "not-a-color" = (0, 0, 0) :=
  ⟨by decide, C8_hexToRgb_malformed_default "not-a-color" (by decide)⟩

/-! ### Classifier and recolorer lemmas -/

theorem dist2_nonneg (r g b : Nat) (c : Nat × Nat × Nat) :
    0 ≤ dist2 r g b c := by
  unfold dist2
  positivity

theorem classifyPixel_eq_foreground_iff (fgRgb bgRgb : Nat × Nat × Nat)
    (p : Pixel) :
    classifyPixel fgRgb bgRgb p = .FOREGROUND ↔
      dist2 p.r p.g p.b fgRgb < dist2 p.r p.g p.b bgRgb := by
  unfold classifyPixel
  split <;> simp_all

theorem recolorPixel_of_background (fgRgb bgRgb : Nat × Nat × Nat)
    (transparent : Bool) (p : Pixel)
    (h : classifyPixel fgRgb bgRgb p = .BACKGROUND) :
    recolorPixel fgRgb bgRgb transparent p =
      if transparent then ⟨0, 0, 0, 0⟩
      else ⟨bgRgb.1, bgRgb.2.1, bgRgb.2.2, 255⟩ := by
  have hlt : ¬ dist2 p.r p.g p.b fgRgb < dist2 p.r p.g p.b bgRgb := by
    intro hc
    rw [(classifyPixel_eq_foreground_iff fgRgb bgRgb p).mpr hc] at h
    exact PixelClass.noConfusion h
  unfold recolorPixel
  rw [if_neg hlt]

theorem recolorPixel_of_foreground (fgRgb bgRgb : Nat × Nat × Nat)
    (transparent : Bool) (p : Pixel)
    (h : classifyPixel fgRgb bgRgb p = .FOREGROUND) :
    recolorPixel fgRgb bgRgb transparent p =
      ⟨fgRgb.1, fgRgb.2.1, fgRgb.2.2, 255⟩ := by
  unfold recolorPixel
  rw [if_pos ((classifyPixel_eq_foreground_iff fgRgb bgRgb p).mp h)]

theorem recolorPixel_alpha_opaque (fgRgb bgRgb : Nat × Nat × Nat) (p : Pixel) :
    (recolorPixel fgRgb bgRgb false p).a = 255 := by
  unfold recolorPixel
  split
  · rfl
  · rfl

/-! ### Claim theorems: classifier and recolorer -/

/-- C1: the pixel classifier compares the Euclidean RGB distances from the
pixel's `R`,`G`,`B` channels (alpha ignored) to the resolved foreground and
background colours, labels the pixel FOREGROUND exactly when `dF < dB`, and
labels it BACKGROUND on a tie `dF = dB`. -/
theorem C1_classifier_euclidean (fgRgb bgRgb : Nat × Nat × Nat) (p : Pixel) :
    (classifyPixel fgRgb bgRgb p = .FOREGROUND ↔
      Real.sqrt ((dist2 p.r p.g p.b fgRgb : Int) : ℝ) <
        Real.sqrt ((dist2 p.r p.g p.b bgRgb : Int) : ℝ)) ∧
    (Real.sqrt ((dist2 p.r p.g p.b fgRgb : Int) : ℝ) =
        Real.sqrt ((dist2 p.r p.g p.b bgRgb : Int) : ℝ) →
      classifyPixel fgRgb bgRgb p = .BACKGROUND) ∧
    (∀ a' : Nat, classifyPixel fgRgb bgRgb ⟨p.r, p.g, p.b, a'⟩ =
      classifyPixel fgRgb bgRgb p) := by
  have hF : (0 : ℝ) ≤ ((dist2 p.r p.g p.b fgRgb : Int) : ℝ) := by
    exact_mod_cast dist2_nonneg p.r p.g p.b fgRgb
  have hB : (0 : ℝ) ≤ ((dist2 p.r p.g p.b bgRgb : Int) : ℝ) := by
    exact_mod_cast dist2_nonneg p.r p.g p.b bgRgb
  refine ⟨?_, ?_, fun _ => rfl⟩
  · rw [classifyPixel_eq_foreground_iff, Real.sqrt_lt_sqrt_iff hF, Int.cast_lt]
  · intro h
    have heq : dist2 p.r p.g p.b fgRgb = dist2 p.r p.g p.b bgRgb := by
      exact_mod_cast (Real.sqrt_inj hF hB).mp h
    unfold classifyPixel
    rw [if_neg (by rw [heq]; exact lt_irrefl _)]

theorem C1_witness :
    classifyPixel (0, 0, 0) (0, 0, 254) ⟨0, 0, 127, 9⟩ = .BACKGROUND :=
  (C1_classifier_euclidean (0, 0, 0) (0, 0, 254) ⟨0, 0, 127, 9⟩).2.1
    (by norm_num [dist2])

/-- C2: in transparent mode, the recoloring pass maps every pixel of the raster
with `recolorPixel`; a BACKGROUND-classified pixel becomes `(0, 0, 0, 0)`
(fully transparent) and a FOREGROUND-classified pixel becomes the requested
foreground colour with alpha 255, for every raster and foreground colour. -/
theorem C2_transparent_mode_invariant (foregroundColor : Option String)
    (actualBackgroundColor : String) (d : RasterData) (p : Pixel)
    (hp : p ∈ d.pixels) :
    (processRaster foregroundColor true actualBackgroundColor d).pixels =
      d.pixels.map (recolorPixel (foregroundRgbOf foregroundColor)
        (hexToRgb actualBackgroundColor) true) ∧
    recolorPixel (foregroundRgbOf foregroundColor)
        (hexToRgb actualBackgroundColor) true p ∈
      (processRaster foregroundColor true actualBackgroundColor d).pixels ∧
    (classifyPixel (foregroundRgbOf foregroundColor)
        (hexToRgb actualBackgroundColor) p = .BACKGROUND →
      recolorPixel (foregroundRgbOf foregroundColor)
        (hexToRgb actualBackgroundColor) true p = ⟨0, 0, 0, 0⟩) ∧
    (classifyPixel (foregroundRgbOf foregroundColor)
        (hexToRgb actualBackgroundColor) p = .FOREGROUND →
      recolorPixel (foregroundRgbOf foregroundColor)
        (hexToRgb actualBackgroundColor) true p =
        ⟨(foregroundRgbOf foregroundColor).1,
          (foregroundRgbOf foregroundColor).2.1,
          (foregroundRgbOf foregroundColor).2.2, 255⟩) := by
  refine ⟨rfl, List.mem_map_of_mem _ hp, fun h => ?_, fun h => ?_⟩
  · rw [recolorPixel_of_background _ _ _ _ h]
    rfl
  · exact recolorPixel_of_foreground _ _ _ _ h

theorem C2_witness :
    ((⟨255, 255, 255, 255⟩ : Pixel) ∈
      (RasterData.mk 2 1 [⟨0, 0, 0, 255⟩, ⟨255, 255, 255, 255⟩]).pixels) ∧
    ((processRaster (some "#000000") true "#ffffff"
        (RasterData.mk 2 1 [⟨0, 0, 0, 255⟩, ⟨255, 255, 255, 255⟩])).pixels =
      (RasterData.mk 2 1 [⟨0, 0, 0, 255⟩, ⟨255, 255, 255, 255⟩]).pixels.map
        (recolorPixel (foregroundRgbOf (some "#000000")) (hexToRgb "#ffffff")
          true) ∧
    recolorPixel (foregroundRgbOf (some "#000000")) (hexToRgb "#ffffff") true
        ⟨255, 255, 255, 255⟩ ∈
      (processRaster (some "#000000") true "#ffffff"
        (RasterData.mk 2 1 [⟨0, 0, 0, 255⟩, ⟨255, 255, 255, 255⟩])).pixels ∧
    (classifyPixel (foregroundRgbOf (some "#000000")) (hexToRgb "#ffffff")
        ⟨255, 255, 255, 255⟩ = .BACKGROUND →
      recolorPixel (foregroundRgbOf (some "#000000")) (hexToRgb "#ffffff") true
        ⟨255, 255, 255, 255⟩ = ⟨0, 0, 0, 0⟩) ∧
    (classifyPixel (foregroundRgbOf (some "#000000")) (hexToRgb "#ffffff")
        ⟨255, 255, 255, 255⟩ = .FOREGROUND →
      recolorPixel (foregroundRgbOf (some "#000000")) (hexToRgb "#ffffff") true
        ⟨255, 255, 255, 255⟩ =
        ⟨(foregroundRgbOf (some "#000000")).1,
          (foregroundRgbOf (some "#000000")).2.1,
          (foregroundRgbOf (some "#000000")).2.2, 255⟩)) :=
  ⟨by decide, C2_transparent_mode_invariant (some "#000000") "#ffffff"
    (RasterData.mk 2 1 [⟨0, 0, 0, 255⟩, ⟨255, 255, 255, 255⟩])
    ⟨255, 255, 255, 255⟩ (by decide)⟩

/-- C6: when the resolved foreground colour equals the resolved background
colour, every pixel classifies BACKGROUND by the tie rule, so every pixel of
the styled raster is uniformly the background colour (or fully transparent in
transparent mode). -/
theorem C6_degenerate_equal_colors (foregroundColor : Option String)
    (bgHex : String) (transp : Bool) (d : RasterData)
    (heq : foregroundRgbOf foregroundColor = hexToRgb bgHex) :
    (∀ p : Pixel, classifyPixel (foregroundRgbOf foregroundColor)
      (hexToRgb bgHex) p = .BACKGROUND) ∧
    (∀ q ∈ (processRaster foregroundColor transp bgHex d).pixels,
      q = if transp then (⟨0, 0, 0, 0⟩ : Pixel)
          else ⟨(hexToRgb bgHex).1, (hexToRgb bgHex).2.1,
            (hexToRgb bgHex).2.2, 255⟩) := by
  have hclass : ∀ p : Pixel, classifyPixel (foregroundRgbOf foregroundColor)
      (hexToRgb bgHex) p = .BACKGROUND := by
    intro p
    unfold classifyPixel
    rw [if_neg (by rw [heq]; exact lt_irrefl _)]
  refine ⟨hclass, fun q hq => ?_⟩
  rcases List.mem_map.mp hq with ⟨p, _, rfl⟩
  rw [recolorPixel_of_background _ _ _ _ (hclass p)]

theorem C6_witness :
    foregroundRgbOf (some "#112233") = hexToRgb "#112233" ∧
    (classifyPixel (foregroundRgbOf (some "#112233")) (hexToRgb "#112233")
        ⟨5, 6, 7, 8⟩ = .BACKGROUND ∧
      ((⟨0, 0, 0, 0⟩ : Pixel) ∈
          (processRaster (some "#112233") true "#112233"
            (RasterData.mk 1 1 [⟨5, 6, 7, 8⟩])).pixels →
        (⟨0, 0, 0, 0⟩ : Pixel) = if true then (⟨0, 0, 0, 0⟩ : Pixel)
          else ⟨(hexToRgb "#112233").1, (hexToRgb "#112233").2.1,
            (hexToRgb "#112233").2.2, 255⟩)) :=
  ⟨by decide,
    (C6_degenerate_equal_colors (some "#112233") "#112233" true
      (RasterData.mk 1 1 [⟨5, 6, 7, 8⟩]) (by decide)).1 ⟨5, 6, 7, 8⟩,
    (C6_degenerate_equal_colors (some "#112233") "#112233" true
      (RasterData.mk 1 1 [⟨5, 6, 7, 8⟩]) (by decide)).2 ⟨0, 0, 0, 0⟩⟩

/-- C7: when transparent mode is not requested, every pixel of the styled
raster has alpha 255, and a BACKGROUND-classified pixel gets the
caller-requested background colour (default white), which is exactly the
resolved background colour in opaque mode. -/
theorem C7_opaque_mode_invariant (foregroundColor backgroundColor : Option String)
    (d : RasterData) (q : Pixel)
    (hq : q ∈ (processRaster foregroundColor false
      (backgroundColorToUse false foregroundColor backgroundColor) d).pixels) :
    q.a = 255 ∧
    backgroundColorToUse false foregroundColor backgroundColor =
      backgroundColor.getD "#FFFFFF" ∧
    (∀ p : Pixel, classifyPixel (foregroundRgbOf foregroundColor)
        (hexToRgb (backgroundColor.getD "#FFFFFF")) p = .BACKGROUND →
      recolorPixel (foregroundRgbOf foregroundColor)
        (hexToRgb (backgroundColorToUse false foregroundColor backgroundColor))
        false p =
        ⟨(hexToRgb (backgroundColor.getD "#FFFFFF")).1,
          (hexToRgb (backgroundColor.getD "#FFFFFF")).2.1,
          (hexToRgb (backgroundColor.getD "#FFFFFF")).2.2, 255⟩) := by
  refine ⟨?_, rfl, fun p hp => ?_⟩
  · rcases List.mem_map.mp hq with ⟨p, _, rfl⟩
    exact recolorPixel_alpha_opaque _ _ p
  · have hbg : backgroundColorToUse false foregroundColor backgroundColor =
        backgroundColor.getD "#FFFFFF" := rfl
    rw [hbg, recolorPixel_of_background _ _ _ _ hp]
    rfl

theorem C7_witness :
    ((⟨255, 240, 10, 255⟩ : Pixel) ∈
      (processRaster (some "#000000") false
        (backgroundColorToUse false (some "#000000") (some "#fff00a"))
        (RasterData.mk 1 1 [⟨250, 250, 250, 0⟩])).pixels) ∧
    ((⟨255, 240, 10, 255⟩ : Pixel).a = 255 ∧
      backgroundColorToUse false (some "#000000") (some "#fff00a") =
        (some "#fff00a").getD "#FFFFFF" ∧
      (∀ p : Pixel, classifyPixel (foregroundRgbOf (some "#000000"))
          (hexToRgb ((some "#fff00a").getD "#FFFFFF")) p = .BACKGROUND →
        recolorPixel (foregroundRgbOf (some "#000000"))
          (hexToRgb (backgroundColorToUse false (some "#000000")
            (some "#fff00a"))) false p =
          ⟨(hexToRgb ((some "#fff00a").getD "#FFFFFF")).1,
            (hexToRgb ((some "#fff00a").getD "#FFFFFF")).2.1,
            (hexToRgb ((some "#fff00a").getD "#FFFFFF")).2.2, 255⟩)) :=
  ⟨by decide, C7_opaque_mode_invariant (some "#000000") (some "#fff00a")
    (RasterData.mk 1 1 [⟨250, 250, 250, 0⟩]) ⟨255, 240, 10, 255⟩ (by decide)⟩

/-- C4: the effective background colour handed to the external encoder is
`invertColor(foregroundColor)` when transparency is requested, the
caller-supplied background colour otherwise, and white `#FFFFFF` when no
background colour is supplied. -/
theorem C4_background_resolution (foregroundColor backgroundColor : Option String)
    (c : String) :
    backgroundColorToUse true foregroundColor backgroundColor =
      invertColor (foregroundColor.getD "#000000") ∧
    backgroundColorToUse false foregroundColor (some c) = c ∧
    backgroundColorToUse false foregroundColor none = "#FFFFFF" :=
  ⟨rfl, rfl, rfl⟩

/-- C3 (divergence witness): a raster-decode failure inside
`applyAdvancedStyling` is NOT recovered by the fallback branch — the promise
rejection bypasses the `try`/`catch` (the promise is returned, not awaited,
inside the `try`), so `generateQR`'s own `catch` escalates it to the fatal
`QR generation failed` error instead of returning the unstyled buffer. -/
theorem C3_styling_failure_escalates :
    generateQRStyled (fun _ => .error "invalid png") (fun _ => [])
        (some "#000000") none true [137, 80, 78, 71] =
      .error "QR generation failed: invalid png" ∧
    generateQRStyled (fun _ => .error "invalid png") (fun _ => [])
        (some "#000000") none true [137, 80, 78, 71] ≠
      .ok [137, 80, 78, 71] := by
  refine ⟨rfl, fun h => ?_⟩
  rw [show generateQRStyled (fun _ => .error "invalid png") (fun _ => [])
      (some "#000000") none true [137, 80, 78, 71] =
      Except.error "QR generation failed: invalid png" from rfl] at h
  exact Except.noConfusion h

/-- C9 counterexample: version 1 is in the claimed range `1..40`, yet the code
only forwards `options.version` when it is strictly greater than `1`, so a
requested version 1 is not passed to the encoder. -/
theorem C9_version_one_cex :
    (1 ≤ 1 ∧ 1 ≤ 40) ∧ versionToPass (some 1) ≠ some 1 := by decide

/-- C9 (amended): a requested version `v` with `2 ≤ v ≤ 40` is forwarded to the
encoder unchanged; a version of 0, 1, or an absent version results in no
version being passed (automatic selection). -/
theorem C9_version_forwarding (v : Nat) (h2 : 2 ≤ v) (h40 : v ≤ 40) :
    versionToPass (some v) = some v ∧ versionToPass (some 0) = none ∧
    versionToPass (some 1) = none ∧ versionToPass none = none := by
  refine ⟨?_, rfl, rfl, rfl⟩
  show (if v > 1 then some v else none) = some v
  rw [if_pos (by omega)]

theorem C9_witness :
    (2 ≤ 7 ∧ 7 ≤ 40) ∧
    (versionToPass (some 7) = some 7 ∧ versionToPass (some 0) = none ∧
      versionToPass (some 1) = none ∧ versionToPass none = none) :=
  ⟨by decide, C9_version_forwarding 7 (by decide) (by decide)⟩

end QrGen
